import Mathlib

/-!
Shallow embedding of the chatbot-platform Express backend
(server/routes/chat.js, server/routes/projects.js, server/routes/files.js).

Identifiers are numeric where the source uses opaque string ids; the
relational store is a record of lists kept in insertion order (which, for
messages, coincides with ascending-timestamp order because timestamps are
assigned from a monotone counter, as the database does with row creation
times).  Outbound HTTP calls to the LLM services and to the OpenAI Files
API are modelled by oracles: a call either succeeds with a payload or
fails (covering timeouts, HTTP errors and malformed responses alike).
-/

namespace Chatbot

/-! ### String primitives

The JavaScript string operations used by the routes, implemented on the
underlying character list so that they evaluate by kernel reduction.
JavaScript indexes UTF-16 code units while `List Char` holds code
points; the two agree on all inputs considered here. -/

/-- `String.prototype.trim()`. -/
def jsTrim (s : String) : String :=
  ⟨((s.data.dropWhile Char.isWhitespace).reverse.dropWhile Char.isWhitespace).reverse⟩

/-- `String.prototype.slice(0, n)`. -/
def jsSlice (s : String) (n : Nat) : String :=
  ⟨s.data.take n⟩

/-- `String.prototype.toLowerCase()` on the ASCII range. -/
def lowerAscii (s : String) : String :=
  ⟨s.data.map Char.toLower⟩

/-- `Array.prototype.join(sep)`. -/
def joinSep (sep : String) : List String → String
  | [] => ""
  | [x] => x
  | x :: y :: xs => x ++ sep ++ joinSep sep (y :: xs)

/-! ### LLM services (chat.js lines 9-13) -/

inductive Service
  | openai
  | openrouter
deriving DecidableEq, Repr, Fintype

/-- Presence of the two credential environment variables
(`OPENAI_API_KEY`, `OPENROUTER_API_KEY`). -/
structure Env where
  openaiKey : Bool
  openrouterKey : Bool
deriving DecidableEq, Repr, Fintype

def hasKey (env : Env) : Service → Bool
  | Service.openai => env.openaiKey
  | Service.openrouter => env.openrouterKey

/-- Service-priority computation at the head of `getAIResponse`
(chat.js lines 17-32): the preferred service goes first when its key is
configured, then each remaining configured service is appended in the
fixed order openai, openrouter, skipping one already present. -/
def selectServices (env : Env) (preferredService : Option Service) : List Service :=
  let s0 : List Service :=
    if preferredService = some Service.openai ∧ env.openaiKey = true then
      [Service.openai]
    else if preferredService = some Service.openrouter ∧ env.openrouterKey = true then
      [Service.openrouter]
    else []
  let s1 := if env.openaiKey = true ∧ Service.openai ∉ s0 then s0 ++ [Service.openai] else s0
  let s2 :=
    if env.openrouterKey = true ∧ Service.openrouter ∉ s1 then s1 ++ [Service.openrouter] else s1
  s2

/-- Token-usage accounting block of a successful completion response. -/
structure Usage where
  promptTokens : Nat
  completionTokens : Nat
  totalTokens : Nat
deriving DecidableEq, Repr

/-- What `getAIResponse` returns on success: reply text, human-readable
service label, optional usage accounting. -/
structure AIResult where
  content : String
  service : String
  usage : Option Usage
deriving DecidableEq, Repr

/-- The hardcoded label attached on a successful call
(chat.js lines 60-64 and 88-93). -/
def serviceLabel : Service → String
  | Service.openai => "OpenAI GPT-3.5-turbo"
  | Service.openrouter => "OpenRouter GPT-3.5-turbo"

/-- One entry of the conversation sent to a backend. -/
structure ChatMsg where
  role : String
  content : String
deriving DecidableEq, Repr

/-- Outcome of one outbound completion call: `some (text, usage)` on
success, `none` on any failure (timeout, HTTP error, malformed body). -/
def Oracle : Type :=
  List ChatMsg → Service → Option (String × Option Usage)

/-- The for-loop of `getAIResponse` (chat.js lines 35-106): try each
service once, in order; stop at the first success; record every service
actually attempted.  Returns the attempted services and the result
(`none` when every attempt failed or the list was empty). -/
def tryServices (call : Service → Option (String × Option Usage)) :
    List Service → List Service × Option AIResult
  | [] => ([], none)
  | s :: rest =>
    match call s with
    | some (c, u) => ([s], some ⟨c, serviceLabel s, u⟩)
    | none =>
      let r := tryServices call rest
      (s :: r.1, r.2)

/-- `getAIResponse(messages, preferredService)` (chat.js lines 16-110);
in the source the second parameter defaults to `null`, modelled here by
the caller passing `none`.  Instead of throwing when every service
fails, the failure is returned as `none` in the second component. -/
def getAIResponse (env : Env) (oracle : Oracle) (messages : List ChatMsg)
    (preferredService : Option Service) : List Service × Option AIResult :=
  tryServices (oracle messages) (selectServices env preferredService)

/-! ### Data model (prisma rows) -/

structure Message where
  id : Nat
  chatId : Nat
  role : String
  content : String
  timestamp : Nat
deriving DecidableEq, Repr

structure Project where
  id : Nat
  userId : Nat
  name : String
  description : Option String
  systemPrompt : String
deriving DecidableEq, Repr

structure Chat where
  id : Nat
  projectId : Nat
  title : String
deriving DecidableEq, Repr

structure FileRec where
  id : Nat
  projectId : Nat
  filename : String
  originalName : String
  mimeType : String
  size : Nat
  openaiFileId : Option String
  status : String
  errorMessage : Option String
deriving DecidableEq, Repr

/-- The relational store.  `nextId` feeds both fresh row ids and message
timestamps, so `messages` is kept in ascending-timestamp order. -/
structure DB where
  nextId : Nat
  projects : List Project
  chats : List Chat
  messages : List Message
  files : List FileRec
deriving DecidableEq, Repr

/-! ### Shared queries -/

/-- `prisma.project.findFirst({where: {id, userId}})`. -/
def findProjectOwned (db : DB) (userId pid : Nat) : Option Project :=
  db.projects.find? (fun p => p.id == pid && p.userId == userId)

/-- `prisma.chat.findFirst({where: {id: chatId, project: {userId}}, include: {project}})`
(chat.js lines 208-222), assuming chat ids are unique in the store. -/
def findChatOwned (db : DB) (userId chatId : Nat) : Option (Chat × Project) :=
  match db.chats.find? (fun c => c.id == chatId) with
  | none => none
  | some c =>
    match db.projects.find? (fun p => p.id == c.projectId) with
    | none => none
    | some p => if p.userId == userId then some (c, p) else none

/-- All messages of one chat, ascending by timestamp (store order). -/
def chatMessagesAsc (db : DB) (chatId : Nat) : List Message :=
  db.messages.filter (fun m => m.chatId == chatId)

/-- The `messages: {orderBy: {timestamp: 'desc'}, take: 10}` include of
the send-message chat query (chat.js lines 216-220). -/
def recentMessagesDesc (db : DB) (chatId : Nat) : List Message :=
  ((chatMessagesAsc db chatId).reverse).take 10

/-! ### Send-message route (chat.js lines 195-337) -/

/-- Files matched for the optional `fileIds` context
(chat.js lines 244-251): `openaiFileId` among the supplied ids and the
owning project belonging to the requesting user. -/
def contextFiles (db : DB) (userId : Nat) (fileIds : List String) : List FileRec :=
  db.files.filter (fun f =>
    (match f.openaiFileId with
     | some fid => fileIds.contains fid
     | none => false)
    && (match db.projects.find? (fun p => p.id == f.projectId) with
        | some p => p.userId == userId
        | none => false))

/-- The textual context blurb (chat.js line 254). -/
def fileContextText (files : List FileRec) : String :=
  "\n\nContext: The user has uploaded " ++ toString files.length
    ++ " file(s) for reference:\n"
    ++ joinSep "\n" (files.map (fun f => "- " ++ f.originalName ++ " (" ++ f.mimeType ++ ")"))
    ++ "\n\nPlease consider these files when responding to the user\x27s question."

/-- File-context computation (chat.js lines 240-259): empty unless
`fileIds` is non-empty and at least one matching file exists. -/
def fileContext (db : DB) (userId : Nat) (fileIds : List String) : String :=
  if fileIds.isEmpty then ""
  else
    let files := contextFiles db userId fileIds
    if files.length > 0 then fileContextText files else ""

/-- `conversationHistory` (chat.js lines 262-275): system entry first
(`systemPrompt || 'You are a helpful assistant.'` plus file context),
then the fetched recent messages reversed back to chronological order,
then the trimmed new user message. -/
def conversationHistory (systemPrompt fctx : String) (recentDesc : List Message)
    (content : String) : List ChatMsg :=
  ⟨"system", (if systemPrompt = "" then "You are a helpful assistant." else systemPrompt) ++ fctx⟩
    :: (recentDesc.reverse.map (fun m => (⟨m.role, m.content⟩ : ChatMsg))
        ++ [⟨"user", jsTrim content⟩])

/-- The four canned offline templates (chat.js lines 288-293); the
pseudorandom index `Math.floor(Math.random() * responses.length)` is the
`Fin 4` argument. -/
def fallbackPick (content : String) : Fin 4 → String
  | ⟨0, _⟩ =>
    "I apologize, but I\x27m currently experiencing connectivity issues with my AI services. However, I can still help you based on my configuration."
  | ⟨1, _⟩ =>
    "Based on your question about \"" ++ jsSlice content 30
      ++ "...\", I would normally provide a detailed response, but I\x27m currently in offline mode."
  | ⟨2, _⟩ =>
    "Thank you for your message. I\x27m temporarily unable to access my full AI capabilities, but I\x27m still here to assist you."
  | ⟨_ + 3, _⟩ =>
    "I understand you\x27re asking about \"" ++ jsSlice content 20
      ++ "...\". While my AI services are temporarily unavailable, I can provide basic assistance."

/-- The synthesized result when every service failed
(chat.js lines 287-301). -/
def fallbackResult (content systemPrompt : String) (rand : Fin 4) : AIResult :=
  { content :=
      fallbackPick content rand
        ++ (if systemPrompt = "" then ""
            else "\n\nNote: I\x27m configured as: " ++ jsSlice systemPrompt 100 ++ "...")
    service := "Fallback Mode"
    usage := none }

inductive SendError
  | emptyContent
  | chatNotFound
deriving DecidableEq, Repr

/-- The success payload of the send-message route (chat.js lines 318-328). -/
structure SendOk where
  userMessage : Message
  assistantMessage : Message
  service : String
  usage : Option Usage
deriving DecidableEq, Repr

/-- Observable steps of one send-message call, in execution order. -/
inductive Event
  | writeUser (m : Message)
  | attempt (s : Service)
  | writeAssistant (m : Message)
deriving DecidableEq, Repr

structure SendOutcome where
  result : Except SendError SendOk
  db : DB
  events : List Event
  sentHistory : Option (List ChatMsg)
deriving Repr

/-- `prisma.message.create`: fresh id and monotone timestamp from the
counter, row appended to the store. -/
def addMessage (db : DB) (chatId : Nat) (role content : String) : Message × DB :=
  let m : Message := ⟨db.nextId, chatId, role, content, db.nextId⟩
  (m, { db with nextId := db.nextId + 1, messages := db.messages ++ [m] })

/-- The send-message route handler (chat.js lines 195-337).  Order of
effects follows the source: validate content, resolve the owned chat
(fetching the 10 most recent messages), persist the user message, build
the file context and conversation history, run the service loop with no
preferred service, fall back to a canned reply when it yields nothing,
persist the assistant message. -/
def sendMessage (env : Env) (oracle : Oracle) (rand : Fin 4) (db : DB)
    (userId chatId : Nat) (content : String) (fileIds : List String) : SendOutcome :=
  if jsTrim content = "" then ⟨Except.error SendError.emptyContent, db, [], none⟩
  else
    match findChatOwned db userId chatId with
    | none => ⟨Except.error SendError.chatNotFound, db, [], none⟩
    | some (_, project) =>
      let recent := recentMessagesDesc db chatId
      let userWrite := addMessage db chatId "user" (jsTrim content)
      let userMsg := userWrite.1
      let db1 := userWrite.2
      let fctx := fileContext db1 userId fileIds
      let history := conversationHistory project.systemPrompt fctx recent content
      let tried := getAIResponse env oracle history none
      let aiResult :=
        match tried.2 with
        | some r => r
        | none => fallbackResult content project.systemPrompt rand
      let asstWrite := addMessage db1 chatId "assistant" aiResult.content
      ⟨Except.ok ⟨userMsg, asstWrite.1, aiResult.service, aiResult.usage⟩,
        asstWrite.2,
        Event.writeUser userMsg :: (tried.1.map Event.attempt ++ [Event.writeAssistant asstWrite.1]),
        some history⟩

/-- The services attempted during one send-message call, read off the
event trace. -/
def SendOutcome.attempted (o : SendOutcome) : List Service :=
  o.events.filterMap (fun e =>
    match e with
    | Event.attempt s => some s
    | _ => none)

/-- The backend label of a successful response envelope
(`metadata.service`), `none` on an error response. -/
def SendOutcome.serviceLabelOut (o : SendOutcome) : Option String :=
  match o.result with
  | Except.ok k => some k.service
  | Except.error _ => none

/-- The assistant text of a successful response envelope. -/
def SendOutcome.assistantContent (o : SendOutcome) : Option String :=
  match o.result with
  | Except.ok k => some k.assistantMessage.content
  | Except.error _ => none

/-! ### Project routes (projects.js) -/

inductive ApiError
  | validation
  | notFound
deriving DecidableEq, Repr

/-- JavaScript truthiness of an optional string body field: absent
(`undefined`) and the empty string are the falsy cases. -/
def jsTruthy : Option String → Bool
  | none => false
  | some s => !(s == "")

/-- `POST /api/projects` (projects.js lines 45-79): reject unless both
`name` and `systemPrompt` are truthy, then create the row. -/
def createProject (db : DB) (userId : Nat)
    (name description systemPrompt : Option String) : Except ApiError Project × DB :=
  if !(jsTruthy name) || !(jsTruthy systemPrompt) then (Except.error ApiError.validation, db)
  else
    let p : Project := ⟨db.nextId, userId, name.getD "", description, systemPrompt.getD ""⟩
    (Except.ok p, { db with nextId := db.nextId + 1, projects := db.projects ++ [p] })

/-- `GET /api/projects/:id` (projects.js lines 82-116): owned lookup or
404; the included recent chats are irrelevant here and omitted. -/
def getProject (db : DB) (userId pid : Nat) : Except ApiError Project :=
  match findProjectOwned db userId pid with
  | none => Except.error ApiError.notFound
  | some p => Except.ok p

/-- `PUT /api/projects/:id` (projects.js lines 119-160): owned lookup or
404, then `name || existing.name` and `systemPrompt || existing.systemPrompt`;
an absent description leaves the column unchanged (prisma skips
`undefined` fields). -/
def updateProject (db : DB) (userId pid : Nat)
    (name description systemPrompt : Option String) : Except ApiError Project × DB :=
  match findProjectOwned db userId pid with
  | none => (Except.error ApiError.notFound, db)
  | some existing =>
    let updated : Project :=
      { existing with
        name := if jsTruthy name then name.getD "" else existing.name
        description :=
          match description with
          | some d => some d
          | none => existing.description
        systemPrompt :=
          if jsTruthy systemPrompt then systemPrompt.getD "" else existing.systemPrompt }
    (Except.ok updated,
      { db with projects := db.projects.map (fun p => if p.id == pid then updated else p) })

/-- `DELETE /api/projects/:id` (projects.js lines 163-196). -/
def deleteProject (db : DB) (userId pid : Nat) : Except ApiError Unit × DB :=
  match findProjectOwned db userId pid with
  | none => (Except.error ApiError.notFound, db)
  | some _ => (Except.ok (), { db with projects := db.projects.filter (fun p => !(p.id == pid)) })

/-! ### File routes (files.js) -/

/-- The MIME allow-list of the multer `fileFilter` (files.js lines 35-53). -/
def allowedTypes : List String :=
  ["text/plain", "text/markdown", "application/pdf", "application/msword",
   "application/vnd.openxmlformats-officedocument.wordprocessingml.document",
   "text/csv", "application/json", "text/javascript", "application/javascript",
   "text/typescript", "text/jsx", "text/tsx", "text/python", "text/html",
   "text/css", "application/x-python-code", "text/x-python"]

/-- The extension allow-list of the multer `fileFilter` (files.js lines 56-57). -/
def allowedExtensions : List String :=
  [".txt", ".md", ".pdf", ".doc", ".docx", ".csv", ".json",
   ".js", ".ts", ".tsx", ".jsx", ".py", ".html", ".css"]

/-- `path.extname` on a bare filename: the part from the final dot,
empty when there is no dot or the final dot leads the name. -/
def extname (s : String) : String :=
  let rev := s.data.reverse
  if rev.contains '.' then
    let tail := rev.takeWhile (fun c => !(c == '.'))
    if s.data.length - tail.length - 1 = 0 then "" else ⟨'.' :: tail.reverse⟩
  else ""

/-- The multer `fileFilter` predicate (files.js lines 33-66): accept when
the MIME type is allow-listed or the lowercased extension is. -/
def fileFilterAccepts (originalname mimetype : String) : Bool :=
  allowedTypes.contains mimetype || allowedExtensions.contains (lowerAscii (extname originalname))

/-- One file part of a multipart upload request. -/
structure IncomingFile where
  originalname : String
  mimetype : String
  size : Nat
deriving DecidableEq, Repr

inductive MulterError
  | tooManyFiles
  | unsupportedType (originalname : String)
deriving DecidableEq, Repr

/-- `upload.array('files', 10)` processing the parts in order
(files.js line 92): an eleventh part raises the count-limit error, a
part failing `fileFilter` raises the unsupported-type error; either
aborts the request before the route handler runs. -/
def multerScan (maxCount : Nat) : Nat → List IncomingFile → Option MulterError
  | _, [] => none
  | seen, f :: rest =>
    if maxCount ≤ seen then some MulterError.tooManyFiles
    else if fileFilterAccepts f.originalname f.mimetype then multerScan maxCount (seen + 1) rest
    else some (MulterError.unsupportedType f.originalname)

def multerAccept (files : List IncomingFile) : Option MulterError :=
  multerScan 10 0 files

/-- Per-file body of the upload loop (files.js lines 129-198): create the
row with status `uploading`, then stage the bytes at the OpenAI Files
API (`stage` is `some id` on success, `none` on failure) and update the
row to `processed` with the returned id, or to `error` keeping the local
metadata.  Returns the final row, the new store, and the successive row
states. -/
structure UploadStep where
  record : FileRec
  db : DB
  history : List FileRec
deriving Repr

def processUploadedFile (db : DB) (projectId : Nat) (f : IncomingFile)
    (storedFilename : String) (stage : Option String) : UploadStep :=
  let created : FileRec :=
    ⟨db.nextId, projectId, storedFilename, f.originalname, f.mimetype, f.size,
      none, "uploading", none⟩
  let db1 : DB := { db with nextId := db.nextId + 1, files := db.files ++ [created] }
  match stage with
  | some openaiId =>
    let updated := { created with openaiFileId := some openaiId, status := "processed" }
    ⟨updated,
      { db1 with files := db1.files.map (fun g => if g.id == created.id then updated else g) },
      [created, updated]⟩
  | none =>
    let updated :=
      { created with status := "error", errorMessage := some "Failed to upload to OpenAI" }
    ⟨updated,
      { db1 with files := db1.files.map (fun g => if g.id == created.id then updated else g) },
      [created, updated]⟩

/-- The loop over all accepted files (files.js lines 129-198). -/
def processFiles (stage : IncomingFile → Option String)
    (stored : IncomingFile → String) (projectId : Nat) :
    DB → List IncomingFile → List FileRec × DB
  | db, [] => ([], db)
  | db, f :: rest =>
    let step := processUploadedFile db projectId f (stored f) (stage f)
    let tail := processFiles stage stored projectId step.db rest
    (step.record :: tail.1, tail.2)

inductive UploadError
  | tooManyFiles
  | unsupportedType (originalname : String)
  | noFiles
  | projectNotFound
deriving DecidableEq, Repr

/-- `POST /api/files/projects/:projectId/upload` (files.js lines 92-226):
multer runs first and aborts the request on a limit or filter error with
no database effect; then the handler rejects an empty file list and an
unowned project, and otherwise runs the upload loop. -/
def uploadRoute (db : DB) (userId projectId : Nat) (files : List IncomingFile)
    (stored : IncomingFile → String) (stage : IncomingFile → Option String) :
    Except UploadError (List FileRec) × DB :=
  match multerAccept files with
  | some MulterError.tooManyFiles => (Except.error UploadError.tooManyFiles, db)
  | some (MulterError.unsupportedType n) => (Except.error (UploadError.unsupportedType n), db)
  | none =>
    if files.isEmpty then (Except.error UploadError.noFiles, db)
    else
      match findProjectOwned db userId projectId with
      | none => (Except.error UploadError.projectNotFound, db)
      | some _ =>
        let r := processFiles stage stored projectId db files
        (Except.ok r.1, r.2)

/-! ### Sample data for concrete instantiations -/

def sampleEnv : Env := ⟨true, true⟩

def envNone : Env := ⟨false, false⟩

/-- An oracle under which every outbound completion call fails. -/
def oracleDown : Oracle := fun _ _ => none

def sampleProject : Project := ⟨100, 1, "Support Bot", none, "Be helpful."⟩

def sampleChat : Chat := ⟨200, 100, "First chat"⟩

def sampleDB : DB := ⟨300, [sampleProject], [sampleChat], [], []⟩

/-- Twelve prior messages on the sample chat, alternating roles. -/
def manyMessages : List Message :=
  (List.range 12).map
    (fun i => ⟨i, 200, if i % 2 = 0 then "user" else "assistant", "m" ++ toString i, i⟩)

def sampleDBMany : DB := ⟨300, [sampleProject], [sampleChat], manyMessages, []⟩

/-! ### Helper lemmas -/

/-- The attempted services form an initial segment of the priority list:
the loop walks the list in order and stops at the first success. -/
theorem tryServices_initial (call : Service → Option (String × Option Usage)) :
    ∀ l : List Service, ∃ rest, l = (tryServices call l).1 ++ rest := by
  intro l
  induction l with
  | nil => exact ⟨[], rfl⟩
  | cons s rest ih =>
    cases h : call s with
    | some v =>
      refine ⟨rest, ?_⟩
      simp [tryServices, h]
    | none =>
      obtain ⟨r2, hr⟩ := ih
      refine ⟨r2, ?_⟩
      simp only [tryServices, h]
      simpa using hr

/-- When every call fails the loop walks the whole list and yields
nothing. -/
theorem tryServices_all_fail (call : Service → Option (String × Option Usage))
    (hfail : ∀ s, call s = none) : ∀ l : List Service, tryServices call l = (l, none) := by
  intro l
  induction l with
  | nil => rfl
  | cons s rest ih => simp [tryServices, hfail s, ih]

/-- Every service the selector emits has its credential configured. -/
theorem selectServices_hasKey :
    ∀ (env : Env) (pref : Option Service) (s : Service),
      s ∈ selectServices env pref → hasKey env s = true := by
  decide

/-- The selector never lists the same service twice. -/
theorem selectServices_nodup :
    ∀ (env : Env) (pref : Option Service), (selectServices env pref).Nodup := by
  decide

/-- The head of the priority list: the preferred service when its
credential is configured. -/
def prefHead (env : Env) : Option Service → List Service
  | some s => if hasKey env s then [s] else []
  | none => []

/-- The remaining configured services in the fixed secondary order. -/
def secondaryOrder (env : Env) (pref : Option Service) : List Service :=
  [Service.openai, Service.openrouter].filter
    (fun s => hasKey env s && !((prefHead env pref).contains s))

/-- Reading the attempted services back off a mapped attempt trace. -/
theorem filterMap_attempt_map (l : List Service) :
    (l.map Event.attempt).filterMap
      (fun e =>
        match e with
        | Event.attempt s => some s
        | _ => none) = l := by
  induction l with
  | nil => rfl
  | cons s rest ih => simp [ih]

/-- C3: the backend selector attempts the preferred backend first when a
hint is given and its credential is configured, then every other
credential-configured backend in the fixed secondary order; each backend
is attempted at most once, and only backends with a configured
credential are ever attempted. -/
theorem C3_backend_selection (env : Env) (pref : Option Service) (oracle : Oracle)
    (messages : List ChatMsg) :
    selectServices env pref = prefHead env pref ++ secondaryOrder env pref
    ∧ (∃ rest, selectServices env pref = (getAIResponse env oracle messages pref).1 ++ rest)
    ∧ (getAIResponse env oracle messages pref).1.Nodup
    ∧ ∀ s ∈ (getAIResponse env oracle messages pref).1, hasKey env s = true := by
  have hdecomp : ∀ (e : Env) (p : Option Service),
      selectServices e p = prefHead e p ++ secondaryOrder e p := by decide
  simp only [getAIResponse]
  obtain ⟨rest, hrest⟩ := tryServices_initial (oracle messages) (selectServices env pref)
  refine ⟨hdecomp env pref, ⟨rest, hrest⟩, ?_, ?_⟩
  · have hnd := selectServices_nodup env pref
    rw [hrest] at hnd
    exact hnd.of_append_left
  · intro s hs
    apply selectServices_hasKey env pref
    rw [hrest]
    exact List.mem_append_left _ hs

/-- C10: the send-message route invokes the selector with no preferred
hint, so the services it attempts are an initial segment of the fixed
order: OpenAI first whenever its credential is configured, then
OpenRouter. -/
theorem C10_route_fixed_order (env : Env) (oracle : Oracle) (rand : Fin 4) (db : DB)
    (userId chatId : Nat) (content : String) (fileIds : List String) :
    selectServices env none
        = (if env.openaiKey = true then [Service.openai] else [])
          ++ (if env.openrouterKey = true then [Service.openrouter] else [])
    ∧ ∃ rest, selectServices env none
        = (sendMessage env oracle rand db userId chatId content fileIds).attempted ++ rest := by
  constructor
  · revert env
    decide
  · unfold sendMessage
    by_cases hc : jsTrim content = ""
    · rw [if_pos hc]
      exact ⟨selectServices env none, by simp [SendOutcome.attempted]⟩
    · rw [if_neg hc]
      cases hchat : findChatOwned db userId chatId with
      | none => exact ⟨selectServices env none, by simp [SendOutcome.attempted]⟩
      | some cp =>
        obtain ⟨c, p⟩ := cp
        simp only [SendOutcome.attempted, getAIResponse, List.filterMap_cons,
          List.filterMap_append, filterMap_attempt_map]
        simpa using tryServices_initial _ (selectServices env none)

theorem append_ne_empty_left (a b : String) (h : a ≠ "") : a ++ b ≠ "" := by
  intro hab
  apply h
  rcases a with ⟨l1⟩
  rcases b with ⟨l2⟩
  have hd := congrArg String.data hab
  simp only [String.data_append] at hd
  simp only [List.append_eq_nil] at hd
  cases hd.1
  rfl

theorem fallbackPick_ne_empty (content : String) (r : Fin 4) :
    fallbackPick content r ≠ "" := by
  rcases r with ⟨v, hv⟩
  interval_cases v
  · simp only [fallbackPick]
    decide
  · exact append_ne_empty_left _ _ (append_ne_empty_left _ _ (by decide))
  · simp only [fallbackPick]
    decide
  · exact append_ne_empty_left _ _ (append_ne_empty_left _ _ (by decide))

theorem fallbackResult_content_ne_empty (content systemPrompt : String) (r : Fin 4) :
    (fallbackResult content systemPrompt r).content ≠ "" :=
  append_ne_empty_left _ _ (fallbackPick_ne_empty content r)

/-- C1: a send-message request that passes validation and chat-ownership
resolution persists exactly one new user-role row and exactly one new
assistant-role row, and the event trace is the user write, then the
backend attempts, then the assistant write, whatever the backend
outcome. -/
theorem C1_send_message_rows (env : Env) (oracle : Oracle) (rand : Fin 4) (db : DB)
    (userId chatId : Nat) (content : String) (fileIds : List String)
    (c : Chat) (p : Project)
    (hc : jsTrim content ≠ "")
    (hchat : findChatOwned db userId chatId = some (c, p)) :
    ∃ (u a : Message) (attempts : List Service),
      (sendMessage env oracle rand db userId chatId content fileIds).events
          = Event.writeUser u :: (attempts.map Event.attempt ++ [Event.writeAssistant a])
      ∧ u.role = "user" ∧ a.role = "assistant"
      ∧ (sendMessage env oracle rand db userId chatId content fileIds).db.messages
          = db.messages ++ [u, a] := by
  unfold sendMessage
  rw [if_neg hc, hchat]
  refine ⟨_, _, _, rfl, rfl, rfl, ?_⟩
  simp [addMessage]

/-- C1 witness: a concrete valid request on the sample store. -/
theorem C1_send_message_rows_witness :
    jsTrim "hi" ≠ ""
    ∧ findChatOwned sampleDB 1 200 = some (sampleChat, sampleProject)
    ∧ ∃ (u a : Message) (attempts : List Service),
        (sendMessage sampleEnv oracleDown 0 sampleDB 1 200 "hi" []).events
            = Event.writeUser u :: (attempts.map Event.attempt ++ [Event.writeAssistant a])
        ∧ u.role = "user" ∧ a.role = "assistant"
        ∧ (sendMessage sampleEnv oracleDown 0 sampleDB 1 200 "hi" []).db.messages
            = sampleDB.messages ++ [u, a] :=
  ⟨by decide, by decide,
    C1_send_message_rows sampleEnv oracleDown 0 sampleDB 1 200 "hi" [] sampleChat
      sampleProject (by decide) (by decide)⟩

/-- C8: an empty-after-trim message fails with the validation error and
an unresolvable chat fails with the not-found error; in both cases the
store is untouched and no write event occurs. -/
theorem C8_validation_and_ownership (env : Env) (oracle : Oracle) (rand : Fin 4) (db : DB)
    (userId chatId : Nat) (content : String) (fileIds : List String) :
    (jsTrim content = "" →
      sendMessage env oracle rand db userId chatId content fileIds
        = ⟨Except.error SendError.emptyContent, db, [], none⟩)
    ∧ (jsTrim content ≠ "" → findChatOwned db userId chatId = none →
      sendMessage env oracle rand db userId chatId content fileIds
        = ⟨Except.error SendError.chatNotFound, db, [], none⟩) := by
  constructor
  · intro hc
    unfold sendMessage
    rw [if_pos hc]
  · intro hc hn
    unfold sendMessage
    rw [if_neg hc, hn]

/-- C8 witness: a whitespace-only message and an unknown chat id on the
sample store. -/
theorem C8_validation_and_ownership_witness :
    (jsTrim "   " = ""
      ∧ sendMessage sampleEnv oracleDown 0 sampleDB 1 200 "   " []
          = ⟨Except.error SendError.emptyContent, sampleDB, [], none⟩)
    ∧ (jsTrim "hi" ≠ "" ∧ findChatOwned sampleDB 1 999 = none
      ∧ sendMessage sampleEnv oracleDown 0 sampleDB 1 999 "hi" []
          = ⟨Except.error SendError.chatNotFound, sampleDB, [], none⟩) :=
  ⟨⟨by decide,
      (C8_validation_and_ownership sampleEnv oracleDown 0 sampleDB 1 200 "   " []).1 (by decide)⟩,
    ⟨by decide, by decide,
      (C8_validation_and_ownership sampleEnv oracleDown 0 sampleDB 1 999 "hi" []).2 (by decide)
        (by decide)⟩⟩

/-- C2 (amended): when every configured backend fails, or none is
configured, a valid send-message request still succeeds with a non-empty
assistant message, and the metadata backend label is the literal
`"Fallback Mode"` the source attaches. -/
theorem C2_total_failure_fallback (env : Env) (oracle : Oracle) (rand : Fin 4) (db : DB)
    (userId chatId : Nat) (content : String) (fileIds : List String)
    (c : Chat) (p : Project)
    (hc : jsTrim content ≠ "")
    (hchat : findChatOwned db userId chatId = some (c, p))
    (hfail : ∀ h s, oracle h s = none) :
    ∃ (k : SendOk), (sendMessage env oracle rand db userId chatId content fileIds).result = Except.ok k
      ∧ k.assistantMessage.content ≠ ""
      ∧ k.service = "Fallback Mode" := by
  unfold sendMessage
  rw [if_neg hc, hchat]
  simp only [getAIResponse, tryServices_all_fail _ (hfail _)]
  exact ⟨_, rfl, fallbackResult_content_ne_empty _ _ _, rfl⟩

/-- C2 witness: both backends configured, every call failing. -/
theorem C2_total_failure_fallback_witness :
    jsTrim "hi" ≠ ""
    ∧ findChatOwned sampleDB 1 200 = some (sampleChat, sampleProject)
    ∧ (∀ h s, oracleDown h s = none)
    ∧ ∃ (k : SendOk), (sendMessage sampleEnv oracleDown 2 sampleDB 1 200 "hi" []).result = Except.ok k
        ∧ k.assistantMessage.content ≠ ""
        ∧ k.service = "Fallback Mode" :=
  ⟨by decide, by decide, fun _ _ => rfl,
    C2_total_failure_fallback sampleEnv oracleDown 2 sampleDB 1 200 "hi" [] sampleChat
      sampleProject (by decide) (by decide) (fun _ _ => rfl)⟩

/-- C2 counterexample: at a concrete valid request on which every
configured backend fails, the returned backend label is
`"Fallback Mode"`, not `"fallback"` as the claim states. -/
theorem C2_label_counterexample :
    (sendMessage sampleEnv oracleDown 0 sampleDB 1 200 "hi" []).serviceLabelOut
        = some "Fallback Mode"
    ∧ (sendMessage sampleEnv oracleDown 0 sampleDB 1 200 "hi" []).serviceLabelOut
        ≠ some "fallback" := by
  constructor
  · decide
  · decide

/-- C4: the conversation context sent to a backend is the project's
system prompt with the file context appended as the first entry, then
the at most 10 most recent prior messages of the chat in chronological
order, then the new user message. -/
theorem C4_conversation_window (env : Env) (oracle : Oracle) (rand : Fin 4) (db : DB)
    (userId chatId : Nat) (content : String) (fileIds : List String)
    (c : Chat) (p : Project)
    (hc : jsTrim content ≠ "")
    (hchat : findChatOwned db userId chatId = some (c, p))
    (hsp : p.systemPrompt ≠ "") :
    (sendMessage env oracle rand db userId chatId content fileIds).sentHistory
        = some
          ((⟨"system", p.systemPrompt ++ fileContext db userId fileIds⟩ : ChatMsg)
            :: (((chatMessagesAsc db chatId).drop ((chatMessagesAsc db chatId).length - 10)).map
                  (fun m => (⟨m.role, m.content⟩ : ChatMsg))
                ++ [⟨"user", jsTrim content⟩]))
    ∧ ((chatMessagesAsc db chatId).drop ((chatMessagesAsc db chatId).length - 10)).length
        ≤ 10 := by
  have hmid : (recentMessagesDesc db chatId).reverse
      = (chatMessagesAsc db chatId).drop ((chatMessagesAsc db chatId).length - 10) := by
    rw [recentMessagesDesc, ← List.rtake_eq_reverse_take_reverse]
    rfl
  constructor
  · unfold sendMessage
    rw [if_neg hc, hchat]
    show some (conversationHistory p.systemPrompt (fileContext db userId fileIds)
        (recentMessagesDesc db chatId) content) = _
    rw [conversationHistory, if_neg hsp, hmid]
  · simp only [List.length_drop]
    omega

/-- C4 witness: a chat with twelve prior messages; the window keeps the
ten most recent. -/
theorem C4_conversation_window_witness :
    jsTrim "hello" ≠ ""
    ∧ findChatOwned sampleDBMany 1 200 = some (sampleChat, sampleProject)
    ∧ sampleProject.systemPrompt ≠ ""
    ∧ ((sendMessage sampleEnv oracleDown 0 sampleDBMany 1 200 "hello" []).sentHistory
        = some
          ((⟨"system", sampleProject.systemPrompt ++ fileContext sampleDBMany 1 []⟩ : ChatMsg)
            :: (((chatMessagesAsc sampleDBMany 200).drop
                    ((chatMessagesAsc sampleDBMany 200).length - 10)).map
                  (fun m => (⟨m.role, m.content⟩ : ChatMsg))
                ++ [⟨"user", jsTrim "hello"⟩]))
      ∧ ((chatMessagesAsc sampleDBMany 200).drop
            ((chatMessagesAsc sampleDBMany 200).length - 10)).length ≤ 10) :=
  ⟨by decide, by decide, by decide,
    C4_conversation_window sampleEnv oracleDown 0 sampleDBMany 1 200 "hello" [] sampleChat
      sampleProject (by decide) (by decide) (by decide)⟩

/-- C5: a user distinct from a project's owner gets not-found from the
get, update and delete routes for that project id, and the store is not
modified. -/
theorem C5_ownership_isolation (db : DB) (userA userB pid : Nat)
    (nm ds sp : Option String)
    (hA : ∀ q ∈ db.projects, q.id = pid → q.userId = userA)
    (hB : userB ≠ userA) :
    getProject db userB pid = Except.error ApiError.notFound
    ∧ updateProject db userB pid nm ds sp = (Except.error ApiError.notFound, db)
    ∧ deleteProject db userB pid = (Except.error ApiError.notFound, db) := by
  have hnone : findProjectOwned db userB pid = none := by
    rw [findProjectOwned, List.find?_eq_none]
    intro q hq hcontra
    simp only [Bool.and_eq_true, beq_iff_eq] at hcontra
    exact hB (hcontra.2.symm.trans (hA q hq hcontra.1))
  refine ⟨?_, ?_, ?_⟩ <;> simp [getProject, updateProject, deleteProject, hnone]

/-- C5 witness: the sample project belongs to user 1; user 2 is turned
away by all three routes. -/
theorem C5_ownership_isolation_witness :
    (∀ q ∈ sampleDB.projects, q.id = 100 → q.userId = 1)
    ∧ (2 : Nat) ≠ 1
    ∧ getProject sampleDB 2 100 = Except.error ApiError.notFound
    ∧ updateProject sampleDB 2 100 (some "X") none (some "Y")
        = (Except.error ApiError.notFound, sampleDB)
    ∧ deleteProject sampleDB 2 100 = (Except.error ApiError.notFound, sampleDB) :=
  ⟨by decide, by decide,
    (C5_ownership_isolation sampleDB 1 2 100 (some "X") none (some "Y") (by decide)
        (by decide)).1,
    (C5_ownership_isolation sampleDB 1 2 100 (some "X") none (some "Y") (by decide)
        (by decide)).2.1,
    (C5_ownership_isolation sampleDB 1 2 100 (some "X") none (some "Y") (by decide)
        (by decide)).2.2⟩

theorem map_id_of_mem {α : Type} (l : List α) (f : α → α) (h : ∀ x ∈ l, f x = x) :
    l.map f = l := by
  induction l with
  | nil => rfl
  | cons a t ih =>
    rw [List.map_cons, h a (by simp), ih (fun x hx => h x (by simp [hx]))]

/-- C6: an uploaded file's row is created with status `uploading` and
moves to `processed` (with the external reference id set) on staging
success or to `error` (retaining the local metadata, the row kept) on
staging failure; once `processed` the reference id is non-null. -/
theorem C6_file_status_lifecycle (db : DB) (pid : Nat) (f : IncomingFile)
    (storedName : String) (stage : Option String)
    (hfresh : ∀ g ∈ db.files, g.id ≠ db.nextId) :
    ∃ created : FileRec,
      (processUploadedFile db pid f storedName stage).history
          = [created, (processUploadedFile db pid f storedName stage).record]
      ∧ created.status = "uploading"
      ∧ created.openaiFileId = none
      ∧ created.filename = storedName
      ∧ created.originalName = f.originalname
      ∧ created.mimeType = f.mimetype
      ∧ created.size = f.size
      ∧ ((processUploadedFile db pid f storedName stage).record.status = "processed"
          ∨ (processUploadedFile db pid f storedName stage).record.status = "error")
      ∧ ((processUploadedFile db pid f storedName stage).record.status = "processed"
          → (processUploadedFile db pid f storedName stage).record.openaiFileId ≠ none)
      ∧ (∀ fid, stage = some fid
          → (processUploadedFile db pid f storedName stage).record.status = "processed"
            ∧ (processUploadedFile db pid f storedName stage).record.openaiFileId = some fid)
      ∧ (stage = none
          → (processUploadedFile db pid f storedName stage).record.status = "error"
            ∧ (processUploadedFile db pid f storedName stage).record.openaiFileId = none
            ∧ (processUploadedFile db pid f storedName stage).record.errorMessage
                = some "Failed to upload to OpenAI"
            ∧ (processUploadedFile db pid f storedName stage).record.filename = storedName
            ∧ (processUploadedFile db pid f storedName stage).record.originalName
                = f.originalname
            ∧ (processUploadedFile db pid f storedName stage).record.mimeType = f.mimetype
            ∧ (processUploadedFile db pid f storedName stage).record.size = f.size)
      ∧ (processUploadedFile db pid f storedName stage).db.files
          = db.files ++ [(processUploadedFile db pid f storedName stage).record] := by
  have hmap : ∀ (u : FileRec),
      db.files.map (fun g => if g.id == db.nextId then u else g) = db.files := by
    intro u
    apply map_id_of_mem
    intro g hg
    rw [if_neg]
    simp only [beq_iff_eq]
    exact hfresh g hg
  cases stage with
  | some fid =>
    have hrec : (processUploadedFile db pid f storedName (some fid)).record
        = ⟨db.nextId, pid, storedName, f.originalname, f.mimetype, f.size, some fid,
            "processed", none⟩ := rfl
    have hfiles : (processUploadedFile db pid f storedName (some fid)).db.files
        = (db.files
              ++ [(⟨db.nextId, pid, storedName, f.originalname, f.mimetype, f.size, none,
                    "uploading", none⟩ : FileRec)]).map
            (fun g : FileRec =>
              if g.id == db.nextId then
                (⟨db.nextId, pid, storedName, f.originalname, f.mimetype, f.size, some fid,
                  "processed", none⟩ : FileRec)
              else g) := rfl
    refine ⟨_, rfl, rfl, rfl, rfl, rfl, rfl, rfl, ?_, ?_, ?_, ?_, ?_⟩
    · rw [hrec]
      exact Or.inl rfl
    · rw [hrec]
      intro _ h
      simp at h
    · intro fid' hf
      cases hf
      rw [hrec]
      exact ⟨rfl, rfl⟩
    · exact fun h => nomatch h
    · rw [hfiles, List.map_append, hmap, hrec]
      simp
  | none =>
    have hrec : (processUploadedFile db pid f storedName none).record
        = ⟨db.nextId, pid, storedName, f.originalname, f.mimetype, f.size, none, "error",
            some "Failed to upload to OpenAI"⟩ := rfl
    have hfiles : (processUploadedFile db pid f storedName none).db.files
        = (db.files
              ++ [(⟨db.nextId, pid, storedName, f.originalname, f.mimetype, f.size, none,
                    "uploading", none⟩ : FileRec)]).map
            (fun g : FileRec =>
              if g.id == db.nextId then
                (⟨db.nextId, pid, storedName, f.originalname, f.mimetype, f.size, none,
                  "error", some "Failed to upload to OpenAI"⟩ : FileRec)
              else g) := rfl
    refine ⟨_, rfl, rfl, rfl, rfl, rfl, rfl, rfl, ?_, ?_, ?_, ?_, ?_⟩
    · rw [hrec]
      exact Or.inr rfl
    · rw [hrec]
      intro h
      simp at h
    · exact fun fid' hf => nomatch hf
    · intro h
      rw [hrec]
      exact ⟨rfl, rfl, rfl, rfl, rfl, rfl, rfl⟩
    · rw [hfiles, List.map_append, hmap, hrec]
      simp

/-- C6 witness: staging succeeds on an empty store. -/
theorem C6_file_status_lifecycle_witness :
    (∀ g ∈ sampleDB.files, g.id ≠ sampleDB.nextId)
    ∧ ∃ created : FileRec,
        (processUploadedFile sampleDB 100 ⟨"a.txt", "text/plain", 4⟩ "files-1.txt"
            (some "file-1")).history
            = [created,
                (processUploadedFile sampleDB 100 ⟨"a.txt", "text/plain", 4⟩ "files-1.txt"
                  (some "file-1")).record]
        ∧ created.status = "uploading"
        ∧ created.openaiFileId = none
        ∧ created.filename = "files-1.txt"
        ∧ created.originalName = "a.txt"
        ∧ created.mimeType = "text/plain"
        ∧ created.size = 4
        ∧ ((processUploadedFile sampleDB 100 ⟨"a.txt", "text/plain", 4⟩ "files-1.txt"
              (some "file-1")).record.status = "processed"
            ∨ (processUploadedFile sampleDB 100 ⟨"a.txt", "text/plain", 4⟩ "files-1.txt"
                (some "file-1")).record.status = "error")
        ∧ ((processUploadedFile sampleDB 100 ⟨"a.txt", "text/plain", 4⟩ "files-1.txt"
              (some "file-1")).record.status = "processed"
            → (processUploadedFile sampleDB 100 ⟨"a.txt", "text/plain", 4⟩ "files-1.txt"
                (some "file-1")).record.openaiFileId ≠ none)
        ∧ (∀ fid, some "file-1" = some fid
            → (processUploadedFile sampleDB 100 ⟨"a.txt", "text/plain", 4⟩ "files-1.txt"
                  (some "file-1")).record.status = "processed"
              ∧ (processUploadedFile sampleDB 100 ⟨"a.txt", "text/plain", 4⟩ "files-1.txt"
                  (some "file-1")).record.openaiFileId = some fid)
        ∧ ((some "file-1" : Option String) = none
            → (processUploadedFile sampleDB 100 ⟨"a.txt", "text/plain", 4⟩ "files-1.txt"
                  (some "file-1")).record.status = "error"
              ∧ (processUploadedFile sampleDB 100 ⟨"a.txt", "text/plain", 4⟩ "files-1.txt"
                  (some "file-1")).record.openaiFileId = none
              ∧ (processUploadedFile sampleDB 100 ⟨"a.txt", "text/plain", 4⟩ "files-1.txt"
                  (some "file-1")).record.errorMessage = some "Failed to upload to OpenAI"
              ∧ (processUploadedFile sampleDB 100 ⟨"a.txt", "text/plain", 4⟩ "files-1.txt"
                  (some "file-1")).record.filename = "files-1.txt"
              ∧ (processUploadedFile sampleDB 100 ⟨"a.txt", "text/plain", 4⟩ "files-1.txt"
                  (some "file-1")).record.originalName = "a.txt"
              ∧ (processUploadedFile sampleDB 100 ⟨"a.txt", "text/plain", 4⟩ "files-1.txt"
                  (some "file-1")).record.mimeType = "text/plain"
              ∧ (processUploadedFile sampleDB 100 ⟨"a.txt", "text/plain", 4⟩ "files-1.txt"
                  (some "file-1")).record.size = 4)
        ∧ (processUploadedFile sampleDB 100 ⟨"a.txt", "text/plain", 4⟩ "files-1.txt"
              (some "file-1")).db.files
            = sampleDB.files
              ++ [(processUploadedFile sampleDB 100 ⟨"a.txt", "text/plain", 4⟩ "files-1.txt"
                    (some "file-1")).record] :=
  ⟨by decide,
    C6_file_status_lifecycle sampleDB 100 ⟨"a.txt", "text/plain", 4⟩ "files-1.txt"
      (some "file-1") (by decide)⟩

/-- The multer scan rejects any batch containing a file that fails the
filter and any batch of more than `maxCount` files. -/
theorem multerScan_rejects (maxCount : Nat) :
    ∀ (files : List IncomingFile) (seen : Nat),
      ((∃ f ∈ files, fileFilterAccepts f.originalname f.mimetype = false)
        ∨ (maxCount < seen + files.length ∧ files ≠ [])) →
      ∃ e, multerScan maxCount seen files = some e := by
  intro files
  induction files with
  | nil =>
    intro seen h
    rcases h with ⟨f, hf, _⟩ | ⟨_, hne⟩
    · exact absurd hf (by simp)
    · exact absurd rfl hne
  | cons f rest ih =>
    intro seen h
    by_cases hcount : maxCount ≤ seen
    · exact ⟨MulterError.tooManyFiles, by simp [multerScan, hcount]⟩
    · by_cases hacc : fileFilterAccepts f.originalname f.mimetype = true
      · have hrest : (∃ g ∈ rest, fileFilterAccepts g.originalname g.mimetype = false)
            ∨ (maxCount < (seen + 1) + rest.length ∧ rest ≠ []) := by
          rcases h with ⟨g, hg, hgf⟩ | ⟨hlen, _⟩
          · rcases List.mem_cons.1 hg with hgf1 | hg2
            · rw [hgf1] at hgf
              rw [hacc] at hgf
              exact absurd hgf (by simp)
            · exact Or.inl ⟨g, hg2, hgf⟩
          · right
            cases rest with
            | nil =>
              simp only [List.length_cons, List.length_nil] at hlen
              omega
            | cons g t => exact ⟨by simp at hlen ⊢; omega, by simp⟩
        obtain ⟨e, he⟩ := ih (seen + 1) hrest
        exact ⟨e, by simp [multerScan, hcount, hacc, he]⟩
      · refine ⟨MulterError.unsupportedType f.originalname, ?_⟩
        simp only [Bool.not_eq_true] at hacc
        simp [multerScan, hcount, hacc]

/-- C7 (amended): a file whose extension is unsupported and whose MIME
type is also outside the allow-list causes the whole request to be
rejected before any database row is created, and a request carrying more
than 10 files is rejected per the configured cap. -/
theorem C7_upload_rejection (db : DB) (userId projectId : Nat)
    (files : List IncomingFile) (stored : IncomingFile → String)
    (stage : IncomingFile → Option String)
    (h : (∃ f ∈ files, fileFilterAccepts f.originalname f.mimetype = false)
        ∨ 10 < files.length) :
    ∃ e, uploadRoute db userId projectId files stored stage = (Except.error e, db) := by
  have hne : files ≠ [] := by
    rcases h with ⟨f, hf, _⟩ | hlen
    · intro hnil
      rw [hnil] at hf
      exact absurd hf (by simp)
    · intro hnil
      rw [hnil] at hlen
      simp at hlen
  have hscan : ∃ e, multerScan 10 0 files = some e := by
    apply multerScan_rejects 10 files 0
    rcases h with hex | hlen
    · exact Or.inl hex
    · exact Or.inr ⟨by omega, hne⟩
  obtain ⟨e, he⟩ := hscan
  cases e with
  | tooManyFiles =>
    exact ⟨UploadError.tooManyFiles, by simp [uploadRoute, multerAccept, he]⟩
  | unsupportedType n =>
    exact ⟨UploadError.unsupportedType n, by simp [uploadRoute, multerAccept, he]⟩

/-- C7 witness: a file unsupported by both extension and MIME type is
rejected with the store untouched. -/
theorem C7_upload_rejection_witness :
    (∃ f ∈ [(⟨"virus.exe", "application/x-msdownload", 3⟩ : IncomingFile)],
        fileFilterAccepts f.originalname f.mimetype = false)
    ∧ ∃ e, uploadRoute sampleDB 1 100 [⟨"virus.exe", "application/x-msdownload", 3⟩]
          (fun g => g.originalname) (fun _ => some "file-9")
        = (Except.error e, sampleDB) :=
  ⟨by decide,
    C7_upload_rejection sampleDB 1 100 [⟨"virus.exe", "application/x-msdownload", 3⟩]
      (fun g => g.originalname) (fun _ => some "file-9") (Or.inl (by decide))⟩

/-- C7 counterexample: a file whose extension `.xyz` is not on the
extension allow-list is nevertheless accepted because its MIME type
`text/plain` is allow-listed, and the upload creates a database row for
it — refuting the claim that an unsupported extension is always rejected
before any row is created. -/
theorem C7_extension_counterexample :
    allowedExtensions.contains (lowerAscii (extname "notes.xyz")) = false
    ∧ multerAccept [(⟨"notes.xyz", "text/plain", 5⟩ : IncomingFile)] = none
    ∧ (uploadRoute sampleDB 1 100 [⟨"notes.xyz", "text/plain", 5⟩]
          (fun g => g.originalname) (fun _ => some "file-7")).2.files.map
        FileRec.originalName = ["notes.xyz"] := by
  refine ⟨by decide, by decide, by decide⟩

/-- C9: a project accepted by create has non-empty name and system
prompt; a create request missing either field is rejected with the
validation error; an update accepted on a store whose rows satisfy the
invariant again yields non-empty name and system prompt. -/
theorem jsTruthy_getD (o : Option String) (h : jsTruthy o = true) : o.getD "" ≠ "" := by
  cases o with
  | none => simp [jsTruthy] at h
  | some s => simpa [jsTruthy] using h

theorem C9_required_fields (db : DB) (userId pid : Nat) (nm ds sp : Option String) :
    (∀ p db2, createProject db userId nm ds sp = (Except.ok p, db2)
        → p.name ≠ "" ∧ p.systemPrompt ≠ "")
    ∧ (nm = none ∨ sp = none
        → createProject db userId nm ds sp = (Except.error ApiError.validation, db))
    ∧ (∀ p db2, (∀ q ∈ db.projects, q.name ≠ "" ∧ q.systemPrompt ≠ "")
        → updateProject db userId pid nm ds sp = (Except.ok p, db2)
        → p.name ≠ "" ∧ p.systemPrompt ≠ "") := by
  refine ⟨?_, ?_, ?_⟩
  · intro p db2 h
    by_cases hguard : (!(jsTruthy nm) || !(jsTruthy sp)) = true
    · rw [createProject, if_pos hguard] at h
      simp at h
    · rw [createProject, if_neg hguard] at h
      have hg : jsTruthy nm = true ∧ jsTruthy sp = true := by
        constructor <;> by_contra hc <;>
          simp only [Bool.not_eq_true] at hc <;> simp [hc] at hguard
      simp only [Prod.mk.injEq, Except.ok.injEq] at h
      obtain ⟨h1, _⟩ := h
      subst h1
      exact ⟨jsTruthy_getD nm hg.1, jsTruthy_getD sp hg.2⟩
  · intro h
    rcases h with hnm | hsp
    · subst hnm
      simp [createProject, jsTruthy]
    · subst hsp
      simp [createProject, jsTruthy]
  · intro p db2 hinv h
    rw [updateProject] at h
    cases hfind : findProjectOwned db userId pid with
    | none =>
      rw [hfind] at h
      simp at h
    | some ex =>
      rw [hfind] at h
      simp only [Prod.mk.injEq, Except.ok.injEq] at h
      obtain ⟨h1, _⟩ := h
      subst h1
      have hex : ex ∈ db.projects := by
        rw [findProjectOwned] at hfind
        exact List.mem_of_find?_eq_some hfind
      obtain ⟨hn, hs⟩ := hinv ex hex
      constructor
      · show (if jsTruthy nm = true then nm.getD "" else ex.name) ≠ ""
        by_cases htn : jsTruthy nm = true
        · rw [if_pos htn]
          exact jsTruthy_getD nm htn
        · rw [if_neg htn]
          exact hn
      · show (if jsTruthy sp = true then sp.getD "" else ex.systemPrompt) ≠ ""
        by_cases hts : jsTruthy sp = true
        · rw [if_pos hts]
          exact jsTruthy_getD sp hts
        · rw [if_neg hts]
          exact hs

/-- C9 witness: a successful create, a create missing the name, and a
successful no-op update on the sample store. -/
theorem C9_required_fields_witness :
    (createProject sampleDB 1 (some "New Bot") none (some "Answer briefly.")
        = (Except.ok (⟨300, 1, "New Bot", none, "Answer briefly."⟩ : Project),
            ⟨301, [sampleProject, ⟨300, 1, "New Bot", none, "Answer briefly."⟩],
              [sampleChat], [], []⟩)
      ∧ (⟨300, 1, "New Bot", none, "Answer briefly."⟩ : Project).name ≠ ""
      ∧ (⟨300, 1, "New Bot", none, "Answer briefly."⟩ : Project).systemPrompt ≠ "")
    ∧ createProject sampleDB 1 none none (some "Answer briefly.")
        = (Except.error ApiError.validation, sampleDB)
    ∧ ((∀ q ∈ sampleDB.projects, q.name ≠ "" ∧ q.systemPrompt ≠ "")
      ∧ updateProject sampleDB 1 100 (some "Renamed") none none
          = (Except.ok (⟨100, 1, "Renamed", none, "Be helpful."⟩ : Project),
              ⟨300, [⟨100, 1, "Renamed", none, "Be helpful."⟩], [sampleChat], [], []⟩)
      ∧ (⟨100, 1, "Renamed", none, "Be helpful."⟩ : Project).name ≠ ""
      ∧ (⟨100, 1, "Renamed", none, "Be helpful."⟩ : Project).systemPrompt ≠ "") :=
  ⟨⟨rfl,
      (C9_required_fields sampleDB 1 100 (some "New Bot") none
          (some "Answer briefly.")).1 _ _ rfl⟩,
    (C9_required_fields sampleDB 1 100 none none (some "Answer briefly.")).2.1
      (Or.inl rfl),
    ⟨by decide, rfl,
      (C9_required_fields sampleDB 1 100 (some "Renamed") none none).2.2 _ _ (by decide)
        rfl⟩⟩


/-- C3 witness: a concrete preferred hint with both credentials
configured. -/
theorem C3_backend_selection_witness :
    selectServices sampleEnv (some Service.openrouter)
        = prefHead sampleEnv (some Service.openrouter)
          ++ secondaryOrder sampleEnv (some Service.openrouter)
    ∧ (∃ rest, selectServices sampleEnv (some Service.openrouter)
        = (getAIResponse sampleEnv oracleDown [] (some Service.openrouter)).1 ++ rest)
    ∧ (getAIResponse sampleEnv oracleDown [] (some Service.openrouter)).1.Nodup
    ∧ ∀ s ∈ (getAIResponse sampleEnv oracleDown [] (some Service.openrouter)).1,
        hasKey sampleEnv s = true :=
  C3_backend_selection sampleEnv (some Service.openrouter) oracleDown []

/-- C10 witness: a concrete route invocation with both credentials
configured. -/
theorem C10_route_fixed_order_witness :
    selectServices sampleEnv none
        = (if sampleEnv.openaiKey = true then [Service.openai] else [])
          ++ (if sampleEnv.openrouterKey = true then [Service.openrouter] else [])
    ∧ ∃ rest, selectServices sampleEnv none
        = (sendMessage sampleEnv oracleDown 0 sampleDB 1 200 "hi" []).attempted ++ rest :=
  C10_route_fixed_order sampleEnv oracleDown 0 sampleDB 1 200 "hi" []

end Chatbot
